import Mathlib

/-
Shallow embedding of the data-exploration dashboard in src/app_7.py.

The pipeline in main filters a bank-marketing table by an age range and
eight categorical multiselect filters, then computes a percentage
distribution of the column named y.  Two models are used:

* a typed model (Row, FilterSpec, apply_filters) for the filter pipeline,
  whose columns are fixed by main: age plus eight categorical columns;
* a dynamic model (DataFrame) for load_data and calculate_percentage,
  where a column may be absent, since accessing a missing column in the
  source raises a KeyError.

Machine floats of the source are modelled by rationals.
-/

namespace Telemarketing

/-- One row of the bank-marketing table, with the columns used by main. -/
structure Row where
  age : Int
  job : String
  marital : String
  default : String
  housing : String
  loan : String
  contact : String
  month : String
  day_of_week : String
  y : String
deriving DecidableEq, Repr

/-- The filter spec produced by the sidebar form in main: an age range
plus one selection list per categorical column. -/
structure FilterSpec where
  age_range : Int × Int
  jobs : List String
  marital : List String
  default : List String
  housing : List String
  loan : List String
  contact : List String
  month : List String
  day : List String
deriving DecidableEq, Repr

/-- Embeds multiselect_filter of src/app_7.py:
if "all" is in selected the frame is returned unchanged, otherwise
only the rows whose col value is in selected are kept
(reset_index drop=True is implicit in the list-of-rows model). -/
def multiselect_filter (df : List Row) (col : Row → String) (selected : List String) : List Row :=
  if "all" ∈ selected then df
  else df.filter (fun r => decide (col r ∈ selected))

/-- Embeds the filter pipeline of main (lines 109-119 of src/app_7.py):
the age-range query followed by the eight multiselect_filter pipes. -/
def apply_filters (df : List Row) (s : FilterSpec) : List Row :=
  let b0 := df.filter (fun r => decide (s.age_range.1 ≤ r.age) && decide (r.age ≤ s.age_range.2))
  let b1 := multiselect_filter b0 (fun r => r.job) s.jobs
  let b2 := multiselect_filter b1 (fun r => r.marital) s.marital
  let b3 := multiselect_filter b2 (fun r => r.default) s.default
  let b4 := multiselect_filter b3 (fun r => r.housing) s.housing
  let b5 := multiselect_filter b4 (fun r => r.loan) s.loan
  let b6 := multiselect_filter b5 (fun r => r.contact) s.contact
  let b7 := multiselect_filter b6 (fun r => r.month) s.month
  multiselect_filter b7 (fun r => r.day_of_week) s.day

/-- The pointwise predicate of one multiselect filter: a row passes when
"all" is selected or its value is among the selected ones. -/
def ms_pred (selected : List String) (v : String) : Bool :=
  decide ("all" ∈ selected) || decide (v ∈ selected)

/-- multiselect_filter is extensionally an ordinary filter by ms_pred. -/
theorem multiselect_filter_eq_filter (df : List Row) (col : Row → String) (selected : List String) :
    multiselect_filter df col selected = df.filter (fun r => ms_pred selected (col r)) := by
  unfold multiselect_filter ms_pred
  by_cases h : "all" ∈ selected
  · simp [h]
  · simp [h]

/-- The combined row predicate of the whole pipeline, in the nested shape
produced by collapsing the filter chain. -/
def row_pred (s : FilterSpec) (r : Row) : Bool :=
  ms_pred s.day r.day_of_week &&
    (ms_pred s.month r.month &&
      (ms_pred s.contact r.contact &&
        (ms_pred s.loan r.loan &&
          (ms_pred s.housing r.housing &&
            (ms_pred s.default r.default &&
              (ms_pred s.marital r.marital &&
                (ms_pred s.jobs r.job &&
                  (decide (s.age_range.1 ≤ r.age) && decide (r.age ≤ s.age_range.2)))))))))

/-- The pipeline equals a single filter by the combined predicate. -/
theorem apply_filters_eq_filter (df : List Row) (s : FilterSpec) :
    apply_filters df s = df.filter (fun r => row_pred s r) := by
  simp only [apply_filters, multiselect_filter_eq_filter, List.filter_filter, row_pred]

/-- A sample row used for concrete evaluations. -/
def exRow : Row :=
  ⟨25, "admin", "married", "no", "yes", "no", "cellular", "may", "mon", "yes"⟩

/-- A second sample row. -/
def exRow2 : Row :=
  ⟨40, "services", "single", "no", "no", "no", "telephone", "jun", "tue", "no"⟩

/-- A spec whose only restriction is an empty jobs selection. -/
def exSpecEmptyJobs : FilterSpec :=
  ⟨(0, 100), [], ["all"], ["all"], ["all"], ["all"], ["all"], ["all"], ["all"]⟩

/-- A fully unrestricting spec: every selection contains "all" and the
age range covers the sample rows. -/
def exSpecAll : FilterSpec :=
  ⟨(0, 100), ["all"], ["all"], ["all"], ["all"], ["all"], ["all"], ["all"], ["all"]⟩

/-- C1: the claim says an empty allowed set keeps every row; on this code
an empty selection excludes every row, as this concrete run shows. -/
theorem C1_empty_selection_cex :
    apply_filters [exRow] exSpecEmptyJobs = [] ∧ ([exRow] : List Row) ≠ [] := by
  constructor
  · rfl
  · simp

/-- C1 amended: a categorical predicate with an empty allowed set keeps no
row at all: multiselect_filter with an empty selection returns the empty
table (only the "all" sentinel, or leaving the column out of the spec,
means no restriction). -/
theorem C1_empty_selection_excludes_all (df : List Row) (col : Row → String) :
    multiselect_filter df col [] = [] := by
  simp [multiselect_filter]

/-- C3: filtering is idempotent: applying the same spec twice yields
the same table as applying it once. -/
theorem C3_apply_filters_idem (df : List Row) (s : FilterSpec) :
    apply_filters (apply_filters df s) s = apply_filters df s := by
  rw [apply_filters_eq_filter, apply_filters_eq_filter]
  exact List.filter_eq_self.mpr (fun x hx => (List.mem_filter.mp hx).2)

/-- C4: an unrestricting spec is the identity: when every categorical
selection contains the "all" sentinel and the age range covers every
age value in the table, apply_filters returns the table unchanged. -/
theorem C4_empty_spec_identity (df : List Row) (s : FilterSpec)
    (hage : ∀ r ∈ df, s.age_range.1 ≤ r.age ∧ r.age ≤ s.age_range.2)
    (hjobs : "all" ∈ s.jobs) (hmarital : "all" ∈ s.marital)
    (hdefault : "all" ∈ s.default) (hhousing : "all" ∈ s.housing)
    (hloan : "all" ∈ s.loan) (hcontact : "all" ∈ s.contact)
    (hmonth : "all" ∈ s.month) (hday : "all" ∈ s.day) :
    apply_filters df s = df := by
  unfold apply_filters
  simp only [multiselect_filter, if_pos hjobs, if_pos hmarital, if_pos hdefault,
    if_pos hhousing, if_pos hloan, if_pos hcontact, if_pos hmonth, if_pos hday]
  refine List.filter_eq_self.mpr (fun r hr => ?_)
  have h := hage r hr
  simp [h.1, h.2]

/-- C4 witness at a concrete table and spec. -/
theorem C4_empty_spec_identity_witness :
    apply_filters [exRow, exRow2] exSpecAll = [exRow, exRow2] :=
  C4_empty_spec_identity [exRow, exRow2] exSpecAll (by decide)
    (by decide) (by decide) (by decide) (by decide) (by decide) (by decide)
    (by decide) (by decide)

/-- C7: the result of apply_filters is a sublist of the input: the kept
rows appear in the same relative order as in the input table (and the
embedding is a pure function, so the input table is never mutated). -/
theorem C7_apply_filters_sublist (df : List Row) (s : FilterSpec) :
    (apply_filters df s).Sublist df := by
  rw [apply_filters_eq_filter]
  exact List.filter_sublist df

/-- C9: whenever "all" occurs in the selection, multiselect_filter
returns the frame completely unchanged, whatever the other selected
values and whatever the column contents: so a data value literally equal
to "all" can never restrict the table to only the matching rows. -/
theorem C9_all_sentinel_identity (df : List Row) (col : Row → String) (selected : List String)
    (h : "all" ∈ selected) : multiselect_filter df col selected = df := by
  simp [multiselect_filter, h]

/-- C9 witness: selecting "all" together with a specific value keeps
both rows, even though only one row has the selected job. -/
theorem C9_all_sentinel_identity_witness :
    multiselect_filter [exRow, exRow2] (fun r => r.job) ["admin", "all"] = [exRow, exRow2] :=
  C9_all_sentinel_identity [exRow, exRow2] (fun r => r.job) ["admin", "all"] (by decide)

/-- A dynamic tabular frame: named columns and rows of cells.  A column
may be absent, matching the source where accessing a missing column
raises a KeyError. -/
structure DataFrame where
  cols : List String
  rows : List (List String)
deriving DecidableEq, Repr

/-- Embeds the pandas df.empty test: true when either axis has length
zero. -/
def DataFrame.empty (df : DataFrame) : Bool :=
  df.rows.isEmpty || df.cols.isEmpty

/-- Column access df[c]: none when the column name is absent, otherwise
the list of that column cell of every row. -/
def DataFrame.getCol (df : DataFrame) (c : String) : Option (List String) :=
  match df.cols.findIdx? (fun x => x == c) with
  | none => none
  | some i => some (df.rows.map (fun r => r.getD i ""))

/-- Embeds load_data of src/app_7.py: try the csv parse, and on any
failure return whatever the excel parse yields.  The two pandas parsers
are external collaborators, passed in as parameters. -/
def load_data {β : Type} (read_csv : β → Except String DataFrame)
    (read_excel : β → Except String DataFrame) (file_data : β) : Except String DataFrame :=
  match read_csv file_data with
  | Except.ok df => Except.ok df
  | Except.error _ => read_excel file_data

/-- Insertion of a value into a sorted list of strings. -/
def insertSorted (v : String) : List String → List String
  | [] => [v]
  | x :: xs => if v ≤ x then v :: x :: xs else x :: insertSorted v xs

/-- Ascending sort of a list of strings, embedding pandas sort_index. -/
def sort_index (l : List String) : List String :=
  l.foldr insertSorted []

/-- Embeds calculate_percentage of src/app_7.py: on an empty frame the
empty distribution; otherwise, for each distinct value of the column y,
the pair of the value and 100 * count / total, sorted by value ascending
(value_counts(normalize=True).mul(100) followed by sort_index); a
non-empty frame without a column y raises a KeyError. -/
def calculate_percentage (df : DataFrame) : Except String (List (String × ℚ)) :=
  if df.empty then Except.ok []
  else
    match df.getCol "y" with
    | none => Except.error "KeyError: y"
    | some ys =>
        Except.ok ((sort_index ys.dedup).map
          (fun v => (v, 100 * (ys.count v : ℚ) / (ys.length : ℚ))))

theorem mem_insertSorted (v a : String) (l : List String) :
    a ∈ insertSorted v l ↔ a = v ∨ a ∈ l := by
  induction l with
  | nil => simp [insertSorted]
  | cons x xs ih =>
      unfold insertSorted
      by_cases h : v ≤ x
      · simp [h]
      · simp only [if_neg h, List.mem_cons, ih]
        tauto

theorem perm_insertSorted (v : String) (l : List String) :
    (insertSorted v l).Perm (v :: l) := by
  induction l with
  | nil => exact List.Perm.refl _
  | cons x xs ih =>
      unfold insertSorted
      by_cases h : v ≤ x
      · simp [h]
      · rw [if_neg h]
        exact (ih.cons x).trans (List.Perm.swap v x xs)

theorem perm_sort_index (l : List String) : (sort_index l).Perm l := by
  induction l with
  | nil => exact List.Perm.refl _
  | cons x xs ih =>
      have h1 : sort_index (x :: xs) = insertSorted x (sort_index xs) := rfl
      rw [h1]
      exact (perm_insertSorted x (sort_index xs)).trans (ih.cons x)

theorem sorted_insertSorted (v : String) (l : List String)
    (h : l.Pairwise (fun a b => a ≤ b)) :
    (insertSorted v l).Pairwise (fun a b => a ≤ b) := by
  induction l with
  | nil => simp [insertSorted]
  | cons x xs ih =>
      unfold insertSorted
      rcases List.pairwise_cons.mp h with ⟨hx, hxs⟩
      by_cases hv : v ≤ x
      · rw [if_pos hv]
        refine List.pairwise_cons.mpr ⟨?_, h⟩
        intro b hb
        rcases List.mem_cons.mp hb with rfl | hb
        · exact hv
        · exact le_trans hv (hx b hb)
      · rw [if_neg hv]
        refine List.pairwise_cons.mpr ⟨?_, ih hxs⟩
        intro b hb
        rcases (mem_insertSorted v b xs).mp hb with rfl | hb
        · exact le_of_not_le hv
        · exact hx b hb

theorem sorted_sort_index (l : List String) :
    (sort_index l).Pairwise (fun a b => a ≤ b) := by
  induction l with
  | nil => simp [sort_index]
  | cons x xs ih => exact sorted_insertSorted x (sort_index xs) ih

/-- Summing the per-value percentages over any value list factors into
100 times the summed counts over the total. -/
theorem sum_pct (ys D : List String) :
    (D.map (fun v => 100 * (ys.count v : ℚ) / (ys.length : ℚ))).sum
      = 100 * (((D.map (fun v => ys.count v)).sum : ℕ) : ℚ) / (ys.length : ℚ) := by
  induction D with
  | nil => simp
  | cons x xs ih =>
      simp only [List.map_cons, List.sum_cons, ih]
      push_cast
      ring

/-- A non-empty frame with a column y has at least one y value. -/
theorem getCol_length (df : DataFrame) (ys : List String)
    (he : df.empty = false) (hy : df.getCol "y" = some ys) :
    (ys.length : ℚ) ≠ 0 := by
  have hrows : df.rows.isEmpty = false := (Bool.or_eq_false_iff.mp he).1
  have hlen : ys.length = df.rows.length := by
    unfold DataFrame.getCol at hy
    cases h : df.cols.findIdx? (fun x => x == "y") with
    | none => rw [h] at hy; exact absurd hy (by simp)
    | some i =>
        rw [h] at hy
        have h2 : df.rows.map (fun r => r.getD i "") = ys := by
          injection hy
        rw [← h2, List.length_map]
  rw [hlen]
  simp only [ne_eq, Nat.cast_eq_zero]
  intro h0
  rw [List.length_eq_zero] at h0
  rw [h0] at hrows
  simp at hrows

/-- A frame with one column a and one row, so no column y. -/
def cexDF : DataFrame := ⟨["a"], [["x"]]⟩

/-- C2: the claim says a frame whose aggregation column is absent yields
an empty distribution without raising; on this code a non-empty frame
without a column y raises a KeyError instead, as this concrete run
shows. -/
theorem C2_missing_column_cex :
    calculate_percentage cexDF = Except.error "KeyError: y" := rfl

/-- C2 amended: calculate_percentage returns the empty distribution,
never raising, whenever the frame is empty (zero rows or zero columns);
a non-empty frame lacking the column y raises a KeyError instead. -/
theorem C2_empty_frame_ok (df : DataFrame) (h : df.empty = true) :
    calculate_percentage df = Except.ok [] := by
  simp [calculate_percentage, h]

/-- C2 witness: a frame with a column y but zero rows. -/
theorem C2_empty_frame_ok_witness :
    calculate_percentage ⟨["y"], []⟩ = Except.ok [] :=
  C2_empty_frame_ok ⟨["y"], []⟩ rfl

/-- C5: on a non-empty frame whose column y holds the values ys, the
result maps exactly the distinct values of ys, each to
100 * count / total, with keys distinct and sorted ascending. -/
theorem C5_percentage_formula (df : DataFrame) (ys : List String)
    (he : df.empty = false) (hy : df.getCol "y" = some ys) :
    ∃ l, calculate_percentage df = Except.ok l ∧
      (∀ v, v ∈ ys → (v, 100 * (ys.count v : ℚ) / (ys.length : ℚ)) ∈ l) ∧
      (∀ p ∈ l, p.1 ∈ ys ∧ p.2 = 100 * (ys.count p.1 : ℚ) / (ys.length : ℚ)) ∧
      List.Pairwise (fun a b => a.1 ≤ b.1) l ∧
      (l.map Prod.fst).Nodup := by
  refine ⟨(sort_index ys.dedup).map
      (fun v => (v, 100 * (ys.count v : ℚ) / (ys.length : ℚ))), ?_, ?_, ?_, ?_, ?_⟩
  · simp [calculate_percentage, he, hy]
  · intro v hv
    exact List.mem_map.mpr
      ⟨v, (perm_sort_index ys.dedup).mem_iff.mpr (List.mem_dedup.mpr hv), rfl⟩
  · intro p hp
    rcases List.mem_map.mp hp with ⟨v, hv, rfl⟩
    exact ⟨List.mem_dedup.mp ((perm_sort_index ys.dedup).mem_iff.mp hv), rfl⟩
  · exact List.pairwise_map.mpr (sorted_sort_index ys.dedup)
  · rw [List.map_map]
    have h1 : (Prod.fst ∘ fun v => (v, 100 * (ys.count v : ℚ) / (ys.length : ℚ)))
        = fun v : String => v := rfl
    rw [h1]
    have h2 := (perm_sort_index ys.dedup).nodup_iff.mpr (List.nodup_dedup ys)
    simpa using h2

/-- A frame whose y column holds yes, no, yes. -/
def df5 : DataFrame := ⟨["y"], [["yes"], ["no"], ["yes"]]⟩

/-- C5 witness at a concrete frame. -/
theorem C5_percentage_formula_witness :
    ∃ l, calculate_percentage df5 = Except.ok l :=
  (C5_percentage_formula df5 ["yes", "no", "yes"] rfl rfl).imp (fun _ h => h.1)

/-- C6: on a non-empty frame with a column y the percentages sum to 100
up to the stated rounding tolerance (in the rational model the sum is
exactly 100, so the bound holds). -/
theorem C6_percentage_sum (df : DataFrame) (ys : List String)
    (he : df.empty = false) (hy : df.getCol "y" = some ys) :
    ∃ l, calculate_percentage df = Except.ok l ∧
      |(l.map Prod.snd).sum - 100| ≤ (1 / 100 : ℚ) * l.length := by
  have hL : (ys.length : ℚ) ≠ 0 := getCol_length df ys he hy
  refine ⟨(sort_index ys.dedup).map
      (fun v => (v, 100 * (ys.count v : ℚ) / (ys.length : ℚ))), ?_, ?_⟩
  · simp [calculate_percentage, he, hy]
  · have hsum : (((sort_index ys.dedup).map
        (fun v => (v, 100 * (ys.count v : ℚ) / (ys.length : ℚ)))).map Prod.snd).sum = 100 := by
      rw [List.map_map]
      have h1 : (Prod.snd ∘ fun v => (v, 100 * (ys.count v : ℚ) / (ys.length : ℚ)))
          = fun v => 100 * (ys.count v : ℚ) / (ys.length : ℚ) := rfl
      rw [h1,
        ((perm_sort_index ys.dedup).map
          (fun v => 100 * (ys.count v : ℚ) / (ys.length : ℚ))).sum_eq,
        sum_pct ys ys.dedup, List.sum_map_count_dedup_eq_length,
        mul_div_assoc, div_self hL, mul_one]
    rw [hsum]
    simp

/-- A frame whose y column holds no, no, yes. -/
def df6 : DataFrame := ⟨["y"], [["no"], ["no"], ["yes"]]⟩

/-- C6 witness at a concrete frame. -/
theorem C6_percentage_sum_witness :
    ∃ l, calculate_percentage df6 = Except.ok l ∧
      |(l.map Prod.snd).sum - 100| ≤ (1 / 100 : ℚ) * l.length :=
  C6_percentage_sum df6 ["no", "no", "yes"] rfl rfl

/-- C8: load_data returns the csv parse when it succeeds, falls back to
the excel parse exactly when the csv parse fails, and yields a table
precisely when one of the two attempts succeeds. -/
theorem C8_load_data_fallback {β : Type} (read_csv read_excel : β → Except String DataFrame)
    (b : β) :
    (∀ df, read_csv b = Except.ok df → load_data read_csv read_excel b = Except.ok df) ∧
    (∀ e, read_csv b = Except.error e → load_data read_csv read_excel b = read_excel b) ∧
    ((∃ df, load_data read_csv read_excel b = Except.ok df) ↔
      (∃ df, read_csv b = Except.ok df) ∨ (∃ df, read_excel b = Except.ok df)) := by
  refine ⟨?_, ?_, ?_⟩
  · intro df h
    simp [load_data, h]
  · intro e h
    simp [load_data, h]
  · cases h : read_csv b with
    | ok df => simp [load_data, h]
    | error e =>
        cases h2 : read_excel b with
        | ok df2 => simp [load_data, h, h2]
        | error e2 => simp [load_data, h, h2]

/-- A sample parsed frame for the loader witness. -/
def exDF : DataFrame := ⟨["y"], [["yes"], ["no"]]⟩

/-- C8 witness: a failing csv parse falls back to the excel parse. -/
theorem C8_load_data_fallback_witness :
    load_data (fun _ : Nat => Except.error "bad csv") (fun _ => Except.ok exDF) 0
      = Except.ok exDF :=
  (C8_load_data_fallback (fun _ : Nat => Except.error "bad csv")
    (fun _ => Except.ok exDF) 0).2.1 "bad csv" rfl

/-- C10: calculate_percentage depends only on the emptiness of the frame
and on its column y, and a non-empty frame without a column y raises a
KeyError: the aggregation column is fixed to y. -/
theorem C10_fixed_column_y :
    (∀ df1 df2 : DataFrame, df1.empty = df2.empty → df1.getCol "y" = df2.getCol "y" →
      calculate_percentage df1 = calculate_percentage df2) ∧
    (∀ df : DataFrame, df.empty = false → df.getCol "y" = none →
      calculate_percentage df = Except.error "KeyError: y") := by
  constructor
  · intro df1 df2 h1 h2
    unfold calculate_percentage
    rw [h1, h2]
  · intro df h1 h2
    simp [calculate_percentage, h1, h2]

/-- Two frames agreeing on column y but differing elsewhere. -/
def dfY1 : DataFrame := ⟨["y"], [["yes"]]⟩

/-- Second frame agreeing with dfY1 on column y. -/
def dfY2 : DataFrame := ⟨["y", "k"], [["yes", "q"]]⟩

/-- A non-empty frame without a column y. -/
def dfNoY : DataFrame := ⟨["a", "b"], [["x", "u"]]⟩

/-- C10 witness: both parts applied at concrete frames. -/
theorem C10_fixed_column_y_witness :
    calculate_percentage dfY1 = calculate_percentage dfY2 ∧
    calculate_percentage dfNoY = Except.error "KeyError: y" :=
  ⟨C10_fixed_column_y.1 dfY1 dfY2 rfl rfl, C10_fixed_column_y.2 dfNoY rfl rfl⟩

end Telemarketing
